import Mathlib

/-!
Verification of the super-orm `QueryBuilder` (src/lib/query.js) against its
natural-language specification.  The builder's mutable `_data` record becomes
an explicit state record, each fluent method becomes a state transition that
returns the state after the call together with the error message it threw (if
any), and `build()` becomes a function from state to `Except` of the rendered
SQL.  The escaping/templating primitives live in `./utils`, which is not part
of the sources here; they are modelled from the specification (§4.3, §6).
-/

/-- SQL-escapable values appearing in the builder's inputs (numbers and
strings suffice for everything exercised here). -/
inductive SqlVal where
  | vNum (n : Nat)
  | vStr (s : String)
deriving DecidableEq

/-- JavaScript values reaching `sqlLimitString` at its call sites in
src/lib/query.js lines 225 and 238: the first argument is the property read
`this._data.skip`, which does not exist on `_data` (the field is `skipRows`),
hence always `undefined`; the second is `this._data.limit`, the current
limit-clause string. -/
inductive JSVal where
  | undef
  | num (n : Nat)
  | str (s : String)
deriving DecidableEq

/-- Replace every occurrence of one character by a character sequence. -/
def replaceChar (c : Char) (r : List Char) : List Char → List Char
  | [] => []
  | x :: xs =>
      if x = c then r ++ replaceChar c r xs else x :: replaceChar c r xs

/-- Modelled from the spec: `escapeIdentifier(name)` (§6) — identifier quoting
with backticks, inner backticks doubled. -/
def sqlEscapeId (name : String) : String :=
  "`" ++ String.mk (replaceChar '`' ['`', '`'] name.data) ++ "`"

/-- Modelled from the spec: `escapeLiteral(value)` (§6) — numbers render as
decimal digits, strings with injection-safe single-quote quoting (backslashes
and single quotes backslash-escaped). -/
def sqlEscape : SqlVal → String
  | SqlVal.vNum n => toString n
  | SqlVal.vStr s =>
      "'" ++ String.mk (replaceChar '\'' ['\\', '\'']
        (replaceChar '\\' ['\\', '\\'] s.data)) ++ "'"

/-- Join a list of strings with a separator (JS `Array.prototype.join`). -/
def joinSep (sep : String) : List String → String
  | [] => ""
  | [x] => x
  | x :: y :: xs => x ++ sep ++ joinSep sep (y :: xs)

/-- JS `String.prototype.trim`: strip leading and trailing whitespace. -/
def jsTrim (s : String) : String :=
  String.mk (((s.data.dropWhile Char.isWhitespace).reverse.dropWhile
    Char.isWhitespace).reverse)

/-- First value bound to a key in an association list (JS object property
lookup; keys are distinct at every call site). -/
def lookupStr (m : List (String × SqlVal)) (k : String) : Option SqlVal :=
  match m with
  | [] => none
  | (k2, v) :: rest => if k2 = k then some v else lookupStr rest k

/-- Modelled from the spec: `renderTemplate(template, positionalValues)` (§6)
— substitute each `?` with the next escaped value, left to right; a `?` with
no value left stays literal. -/
def sqlFmtGo : List Char → List SqlVal → String
  | [], _ => ""
  | '?' :: rest, v :: vs => sqlEscape v ++ sqlFmtGo rest vs
  | '?' :: rest, [] => "?" ++ sqlFmtGo rest []
  | c :: rest, vs => String.mk [c] ++ sqlFmtGo rest vs

/-- Modelled from the spec: `renderTemplate` (§6), entry point. -/
def sqlFormat (tpl : String) (values : List SqlVal) : String :=
  sqlFmtGo tpl.data values

/-- Characters allowed in a `:name` placeholder name. -/
def isNameChar (c : Char) : Bool :=
  c.isAlphanum || c = '_' || c = '$'

/-- Modelled from the spec: `renderTemplateNamed(template, mapping)` (§6) —
substitute each `:name` token whose name is bound in the mapping with the
escaped value; unmatched placeholders are left as literal text (§4.4).  The
fuel argument bounds the recursion by the character count. -/
def fmtObjGo (values : List (String × SqlVal)) : Nat → List Char → String
  | 0, cs => String.mk cs
  | _ + 1, [] => ""
  | fuel + 1, ':' :: rest =>
      let nm := rest.takeWhile isNameChar
      if nm.isEmpty then ":" ++ fmtObjGo values fuel rest
      else
        match lookupStr values (String.mk nm) with
        | some v => sqlEscape v ++ fmtObjGo values fuel (rest.drop nm.length)
        | none => ":" ++ String.mk nm ++ fmtObjGo values fuel (rest.drop nm.length)
  | fuel + 1, c :: rest => String.mk [c] ++ fmtObjGo values fuel rest

/-- Modelled from the spec: `renderTemplateNamed` (§6), entry point. -/
def sqlFormatObject (tpl : String) (values : List (String × SqlVal)) : String :=
  fmtObjGo values tpl.data.length tpl.data

/-- Modelled from the spec: `renderUpdateAssignments(mapping)` (§6) —
`{a:1,b:2}` becomes ``  `a`=1, `b`=2 ``. -/
def sqlUpdateString (m : List (String × SqlVal)) : String :=
  joinSep ", " (m.map (fun p => sqlEscapeId p.1 ++ "=" ++ sqlEscape p.2))

/-- JS `Number()` coercion of the values that reach `sqlLimitString`:
`undefined` coerces to NaN (`none`), the empty string to `0`, an all-digit
string to its value, and any other string to NaN. -/
def jsToNumber : JSVal → Option Nat
  | JSVal.undef => none
  | JSVal.num n => some n
  | JSVal.str s =>
      if s.isEmpty then some 0
      else if s.data.all Char.isDigit then s.toNat? else none

/-- Whether a coerced JS number is a number greater than zero (NaN compares
false). -/
def optGt0 : Option Nat → Bool
  | some v => decide (0 < v)
  | none => false

/-- Modelled from the spec: `renderLimitClause(skip, limit)` implementing §4.3
— both zero: no clause; limit only: `LIMIT l`; both: `LIMIT s,l`; skip only:
`LIMIT s,18446744073709551615`.  Arguments are coerced as JS `Number()` does,
and NaN satisfies neither `== 0` nor `> 0`, so a NaN argument selects the
same branch as zero. -/
def sqlLimitString (skip limit : JSVal) : String :=
  let s := jsToNumber skip
  let l := jsToNumber limit
  if optGt0 l then
    if optGt0 s then "LIMIT " ++ toString (s.getD 0) ++ "," ++ toString (l.getD 0)
    else "LIMIT " ++ toString (l.getD 0)
  else if optGt0 s then "LIMIT " ++ toString (s.getD 0) ++ ",18446744073709551615"
  else ""

/-- The `_data` record of class `QueryBuilder` (src/lib/query.js, constructor
lines 39-52).  `update`, `insert`, `delete` and `sql` start as JS `null`
(`none`); `countAlias` is modelled from the spec (§3) for the `count` method,
which the repository's tests exercise but src/lib/query.js does not define. -/
structure QueryBuilderData where
  fields : String
  conditions : List String
  type : String
  update : Option String
  insert : Option String
  delete : Option String
  sql : Option String
  orderFields : String
  orderBy : String
  skipRows : Nat
  limitRows : Nat
  limit : String
  countAlias : Option String
deriving DecidableEq

/-- The state installed by the constructor (src/lib/query.js lines 39-52). -/
def initData : QueryBuilderData :=
  { fields := "*", conditions := [], type := "", update := none,
    insert := none, delete := none, sql := none, orderFields := "",
    orderBy := "", skipRows := 0, limitRows := 0, limit := "",
    countAlias := none }

/-- JS template interpolation of a possibly-null string (null prints as the
text `null`). -/
def jsNullStr : Option String → String
  | some s => s
  | none => "null"

/-- The second argument of `format`/`where`/`update`: a JS array of values or
a plain object. -/
inductive FormatValues where
  | arr (xs : List SqlVal)
  | obj (m : List (String × SqlVal))
deriving DecidableEq

/-- The first argument of `where`: a string template or a plain object (the
shapes the repository uses; other JS values fail the method's own type
assertion and are not needed by any claim). -/
inductive WhereCondArg where
  | wStr (s : String)
  | wObj (m : List (String × SqlVal))
deriving DecidableEq

/-- The first argument of `update`: a string template, a plain object, or a
number (a value that is neither string nor object, used to exercise the type
assertion). -/
inductive UpdateVal where
  | uStr (s : String)
  | uObj (m : List (String × SqlVal))
  | uNum (n : Nat)
deriving DecidableEq

/-- JS truthiness of an `update` first argument. -/
def truthyU : UpdateVal → Bool
  | UpdateVal.uStr s => !s.isEmpty
  | UpdateVal.uObj _ => true
  | UpdateVal.uNum n => n != 0

/-- The argument of `insert`: one plain object or a JS array of objects
(each object an ordered key/value list). -/
inductive InsertVal where
  | iObj (m : List (String × SqlVal))
  | iArr (xs : List (List (String × SqlVal)))
deriving DecidableEq

/-- The error text of the `assert.ok(this._data.type === '')` guard at the
head of every statement-establishing method. -/
def typeSetErr (t : String) : String :=
  "cannot change query type after it was set to \"" ++ t ++ "\""

namespace QueryBuilder

/-- `format(tpl, values)` (src/lib/query.js lines 62-69): array values go
through positional substitution, object values through named substitution. -/
def format (tpl : String) (values : FormatValues) : String :=
  match values with
  | FormatValues.arr xs => sqlFormat tpl xs
  | FormatValues.obj m => sqlFormatObject tpl m

/-- `where(condition, values)` (src/lib/query.js lines 83-95): a falsy
condition throws `missing condition`; a string condition appends one
formatted fragment (with `values || []`); an object appends one
`` `key`=value `` fragment per property.  Returns the state after the call
and the thrown message, if any. -/
def whereCond (condition : WhereCondArg) (values : Option FormatValues)
    (d : QueryBuilderData) : QueryBuilderData × Option String :=
  match condition with
  | WhereCondArg.wStr s =>
      if s.isEmpty then (d, some "missing condition")
      else
        let c := format s (values.getD (FormatValues.arr []))
        ({ d with conditions := d.conditions ++ [c] }, none)
  | WhereCondArg.wObj m =>
      let cs := m.map (fun p => sqlEscapeId p.1 ++ "=" ++ sqlEscape p.2)
      ({ d with conditions := d.conditions ++ cs }, none)

/-- Escape the arguments of `select`/`fields`; an empty string fails the
per-name assertion `field name must be a string` (src/lib/query.js line
106). -/
def escapeFields (args : List String) : Except String (List String) :=
  args.mapM (fun name =>
    if name.isEmpty then Except.error "field name must be a string"
    else Except.ok (sqlEscapeId name))

/-- `select(...args)` (src/lib/query.js lines 102-110): guard on the unset
type, set the type to SELECT, then escape and join the argument names into
`fields` (an empty argument list stores the empty string, replacing the
constructor's `*`). -/
def select (args : List String) (d : QueryBuilderData) :
    QueryBuilderData × Option String :=
  if d.type = "" then
    let d1 := { d with type := "SELECT" }
    match escapeFields args with
    | Except.ok fs => ({ d1 with fields := joinSep ", " fs }, none)
    | Except.error e => (d1, some e)
  else (d, some (typeSetErr d.type))

/-- Modelled from the spec: `count(alias)` (§4.1, §4.4) is called by the
repository's tests but absent from src/lib/query.js.  Per §4.1 it fails when
the kind is already set, otherwise sets the kind to COUNT; the alias must be
a non-empty string and is escaped as the result column identifier. -/
def count (nm : String) (d : QueryBuilderData) :
    QueryBuilderData × Option String :=
  if d.type = "" then
    let d1 := { d with type := "COUNT" }
    if nm.isEmpty then (d1, some "alias must be a non-empty string")
    else ({ d1 with countAlias := some (sqlEscapeId nm) }, none)
  else (d, some (typeSetErr d.type))

/-- `update(update, values)` (src/lib/query.js lines 124-136): guard on the
unset type, set the type to UPDATE, then validate the payload — a missing or
falsy payload throws `missing update data`, a non-string/non-object payload
throws `first parameter must be a string or array`; a string payload is
formatted with `values || []`, an object payload goes through the
update-assignment serializer. -/
def update (arg : Option UpdateVal) (values : Option FormatValues)
    (d : QueryBuilderData) : QueryBuilderData × Option String :=
  if d.type = "" then
    let d1 := { d with type := "UPDATE" }
    match arg with
    | none => (d1, some "missing update data")
    | some u =>
        if truthyU u then
          match u with
          | UpdateVal.uStr s =>
              let v := format s (values.getD (FormatValues.arr []))
              ({ d1 with update := some v }, none)
          | UpdateVal.uObj m =>
              ({ d1 with update := some (sqlUpdateString m) }, none)
          | UpdateVal.uNum _ =>
              (d1, some "first parameter must be a string or array")
        else (d1, some "missing update data")
  else (d, some (typeSetErr d.type))

/-- One rendered `(v1, v2, ...)` line per insert row.  The source iterates
`for (const field in fields)` over the **array** of escaped column names
(src/lib/query.js line 159), so `field` ranges over the array's index keys
`"0"`, `"1"`, ..., and `assert.ok(field in item)` tests whether the row
object has a property named after the index. -/
def insertLine (fields : List String) (item : List (String × SqlVal)) :
    Except String (List String) :=
  (List.range fields.length).mapM (fun i =>
    match lookupStr item (toString i) with
    | some v => Except.ok (sqlEscape v)
    | none => Except.error
        ("every item of data array must have field \"" ++ toString i ++ "\""))

/-- The full `(columns) VALUES (...),\n(...)` text of an INSERT, or the error
of the first failing row (src/lib/query.js lines 154-165).  `fields` is the
escaped column-name array taken from the first row's keys. -/
def insertRender (fields : List String)
    (rows : List (List (String × SqlVal))) : Except String String :=
  (rows.mapM (fun item => (insertLine fields item).map
      (fun line => "(" ++ joinSep ", " line ++ ")"))).map
    (fun values => "(" ++ joinSep ", " fields ++ ") VALUES " ++
      joinSep ",\n" values)

/-- Store the rendered INSERT payload (src/lib/query.js line 165); on a row
error the `insert` field is left unassigned. -/
def insertFinish (d1 : QueryBuilderData)
    (rows : List (List (String × SqlVal))) : QueryBuilderData × Option String :=
  match insertRender ((rows.headD []).map (fun p => sqlEscapeId p.1)) rows with
  | Except.ok s => ({ d1 with insert := some s }, none)
  | Except.error e => (d1, some e)

/-- `insert(data)` (src/lib/query.js lines 144-167): guard on the unset type,
set the type to INSERT, require data to be present (`missing data`), require
a non-empty array (`data array must at least have 1 item`), wrap a single
object as a one-row array, then render. -/
def insert (data : Option InsertVal) (d : QueryBuilderData) :
    QueryBuilderData × Option String :=
  if d.type = "" then
    let d1 := { d with type := "INSERT" }
    match data with
    | none => (d1, some "missing data")
    | some (InsertVal.iObj m) => insertFinish d1 [m]
    | some (InsertVal.iArr xs) =>
        if 1 ≤ xs.length then insertFinish d1 xs
        else (d1, some "data array must at least have 1 item")
  else (d, some (typeSetErr d.type))

/-- `delete()` (src/lib/query.js lines 174-178). -/
def deleteStmt (d : QueryBuilderData) : QueryBuilderData × Option String :=
  if d.type = "" then ({ d with type := "DELETE" }, none)
  else (d, some (typeSetErr d.type))

/-- `sql(sql)` (src/lib/query.js lines 186-197): guard on the unset type, set
the type to CUSTOM, and substitute the template **immediately** against the
current state, with the mapping keys `orderBy`, `limit`, `fields`,
`skipRows`, `limitRows`. -/
def sql (tpl : String) (d : QueryBuilderData) :
    QueryBuilderData × Option String :=
  if d.type = "" then
    let rendered := sqlFormatObject tpl
      [("orderBy", SqlVal.vStr d.orderBy), ("limit", SqlVal.vStr d.limit),
       ("fields", SqlVal.vStr d.fields), ("skipRows", SqlVal.vNum d.skipRows),
       ("limitRows", SqlVal.vNum d.limitRows)]
    ({ d with
        type := "CUSTOM"
        sql := some rendered }, none)
  else (d, some (typeSetErr d.type))

/-- Modelled from the spec: `fields(...)` (§4.2) is called by the
repository's tests but absent from src/lib/query.js; it (re)sets the
projection the same way `select` does, without establishing a kind. -/
def fields (args : List String) (d : QueryBuilderData) :
    QueryBuilderData × Option String :=
  match escapeFields args with
  | Except.ok fs => ({ d with fields := joinSep ", " fs }, none)
  | Except.error e => (d, some e)

/-- `order(tpl, values)` (src/lib/query.js lines 206-214): formats the
template when values are given, stores the result in `orderFields`, and
overwrites `orderBy` with `ORDER BY` plus the new body. -/
def order (tpl : String) (values : Option FormatValues)
    (d : QueryBuilderData) : QueryBuilderData :=
  let ofs := match values with
    | some v => format tpl v
    | none => tpl
  { d with orderFields := ofs, orderBy := "ORDER BY " ++ ofs }

/-- `skip(rows)` (src/lib/query.js lines 222-227): stores `rows` into
`skipRows`, then recomputes the limit string as
`sqlLimitString(this._data.skip, this._data.limit)` — the first argument is
the nonexistent property `skip` (always JS `undefined`), the second the
current limit-clause string. -/
def skip (rows : Nat) (d : QueryBuilderData) : QueryBuilderData :=
  { d with
      skipRows := rows
      limit := sqlLimitString JSVal.undef (JSVal.str d.limit) }

/-- `limit(rows)` (src/lib/query.js lines 235-240): stores `rows` into
`limitRows`, then recomputes the limit string exactly as `skip` does, from
the nonexistent `_data.skip` property and the current limit-clause string. -/
def limit (rows : Nat) (d : QueryBuilderData) : QueryBuilderData :=
  { d with
      limitRows := rows
      limit := sqlLimitString JSVal.undef (JSVal.str d.limit) }

/-- `build()` (src/lib/query.js lines 247-273): renders the statement for the
current state and trims the result; the state is returned unchanged (the
source assigns to no field of `_data` in `build`).  The UPDATE/DELETE limit
segment is recomputed locally from `limitRows` alone; SELECT uses the stored
`limit` string.  An unset or unknown type throws `invalid query type`. -/
def build (tableName : String) (d : QueryBuilderData) :
    Except String String × QueryBuilderData :=
  let t := sqlEscapeId tableName
  let w := joinSep " AND " d.conditions
  let lim := if 0 < d.limitRows then "LIMIT " ++ toString d.limitRows else ""
  let res : Except String String :=
    if d.type = "SELECT" then
      Except.ok ("SELECT " ++ d.fields ++ " FROM " ++ t ++ " WHERE " ++ w ++
        " " ++ d.orderBy ++ " " ++ d.limit)
    else if d.type = "INSERT" then
      Except.ok ("INSERT INTO " ++ t ++ " " ++ jsNullStr d.insert)
    else if d.type = "UPDATE" then
      Except.ok ("UPDATE " ++ t ++ " SET " ++ jsNullStr d.update ++
        " WHERE " ++ w ++ " " ++ lim)
    else if d.type = "DELETE" then
      Except.ok ("DELETE FROM " ++ t ++ " WHERE " ++ w ++ " " ++ lim)
    else if d.type = "CUSTOM" then
      match d.sql with
      | some s => Except.ok s
      | none => Except.error "TypeError: cannot call trim of null"
    else Except.error ("invalid query type \"" ++ d.type ++ "\"")
  (res.map jsTrim, d)

end QueryBuilder

/-- A statement-establishing call, with its arguments: the six methods the
spec lists in §4.1 (`select`, `count`, `insert`, `update`, `delete`,
`sql`). -/
inductive EstCall where
  | eSelect (args : List String)
  | eCount (nm : String)
  | eInsert (data : Option InsertVal)
  | eUpdate (arg : Option UpdateVal) (values : Option FormatValues)
  | eDelete
  | eSql (tpl : String)

/-- Apply a statement-establishing call to a builder state. -/
def applyEst : EstCall → QueryBuilderData → QueryBuilderData × Option String
  | EstCall.eSelect args, d => QueryBuilder.select args d
  | EstCall.eCount nm, d => QueryBuilder.count nm d
  | EstCall.eInsert data, d => QueryBuilder.insert data d
  | EstCall.eUpdate a v, d => QueryBuilder.update a v d
  | EstCall.eDelete, d => QueryBuilder.deleteStmt d
  | EstCall.eSql t, d => QueryBuilder.sql t d

/-- The statement kind a call establishes. -/
def estKind : EstCall → String
  | EstCall.eSelect _ => "SELECT"
  | EstCall.eCount _ => "COUNT"
  | EstCall.eInsert _ => "INSERT"
  | EstCall.eUpdate _ _ => "UPDATE"
  | EstCall.eDelete => "DELETE"
  | EstCall.eSql _ => "CUSTOM"

theorem insertFinish_fst_type (d1 : QueryBuilderData)
    (rows : List (List (String × SqlVal))) :
    (QueryBuilder.insertFinish d1 rows).1.type = d1.type := by
  unfold QueryBuilder.insertFinish
  split <;> rfl

/-- On a state whose kind is still unset, every establishing call sets the
kind named by the call — even when the call then throws on its payload. -/
theorem applyEst_fst_type (c : EstCall) (d : QueryBuilderData)
    (h : d.type = "") : (applyEst c d).1.type = estKind c := by
  cases c with
  | eSelect args =>
      simp only [applyEst, QueryBuilder.select, h, if_true, estKind]
      split <;> rfl
  | eCount nm =>
      simp only [applyEst, QueryBuilder.count, h, if_true, estKind]
      split <;> rfl
  | eInsert data =>
      simp only [applyEst, QueryBuilder.insert, h, if_true, estKind]
      cases data with
      | none => rfl
      | some v =>
          cases v with
          | iObj m => exact insertFinish_fst_type _ _
          | iArr xs =>
              by_cases hx : 1 ≤ xs.length
              · simp only [hx, if_true]
                exact insertFinish_fst_type _ _
              · simp only [hx, if_false]
  | eUpdate a v =>
      simp only [applyEst, QueryBuilder.update, h, if_true, estKind]
      cases a with
      | none => rfl
      | some u =>
          cases ht : truthyU u

          · simp only [ht, Bool.false_eq_true, if_false]
          · simp only [ht, if_true]
            cases u <;> rfl
  | eDelete => simp [applyEst, QueryBuilder.deleteStmt, h, estKind]
  | eSql tpl => simp [applyEst, QueryBuilder.sql, h, estKind]

/-- On a state whose kind is already set, every establishing call throws the
`cannot change query type` error and leaves the whole state unchanged. -/
theorem applyEst_blocked (c : EstCall) (d : QueryBuilderData)
    (h : ¬ d.type = "") :
    applyEst c d = (d, some (typeSetErr d.type)) := by
  cases c <;>
    simp [applyEst, QueryBuilder.select, QueryBuilder.count,
      QueryBuilder.insert, QueryBuilder.update, QueryBuilder.deleteStmt,
      QueryBuilder.sql, h]

theorem estKind_ne_empty (c : EstCall) : estKind c ≠ "" := by
  cases c <;> simp [estKind]

/-- C1: contrary to the claim (and to the repository's own test expecting
`DELETE FROM `test1``), a builder whose conditions sequence is empty still
renders the WHERE keyword: the keyword is hard-coded in the build template,
only the empty fragment after it renders as the empty string, and the final
trim removes just the trailing spaces, giving `DELETE FROM `test1` WHERE`. -/
theorem c1_delete_without_conditions_keeps_where :
    (QueryBuilder.build "test1" (QueryBuilder.deleteStmt initData).1).1 =
      Except.ok "DELETE FROM `test1` WHERE" := rfl

/-- C2: contrary to the claim, placeholder substitution happens at `sql()`
call time, not at `build()` time: the template is resolved immediately
against a mapping keyed `orderBy`/`limit`/`fields`/`skipRows`/`limitRows`,
which the `:$fields` token does not match, so it stays literal; a later
`fields('a','b','c')` has no effect on the stored text and `build()` returns
`SELECT :$fields FROM `test1``, not `SELECT `a`, `b`, `c` FROM `test1``. -/
theorem c2_sql_substituted_at_call_time :
    (QueryBuilder.build "test1" (QueryBuilder.fields ["a", "b", "c"]
      (QueryBuilder.sql "SELECT :$fields FROM `test1`" initData).1).1).1 =
      Except.ok "SELECT :$fields FROM `test1`" := rfl

/-- C3: contrary to the claim (and to the repository's own test),
`insert({a:123,b:456})` does not succeed: the source iterates `for...in`
over the escaped-column **array**, so the per-row membership assertion looks
for a property named `"0"` in the row and throws
`every item of data array must have field "0"` — after the kind was already
set to INSERT. -/
theorem c3_insert_single_mapping_throws :
    QueryBuilder.insert
        (some (InsertVal.iObj [("a", SqlVal.vNum 123), ("b", SqlVal.vNum 456)]))
        initData =
      ({ initData with type := "INSERT" },
        some "every item of data array must have field \"0\"") := rfl

/-- C4: contrary to the claim (and to the repository's own test), a skip-only
SELECT renders no LIMIT segment at all: `skip(10)` recomputes the clause from
the nonexistent `_data.skip` property (JS `undefined`) and the previous
clause string instead of from `skipRows`/`limitRows`, so the stored clause
stays empty and the rendered statement ends at the WHERE fragment rather
than in `LIMIT 10,18446744073709551615`. -/
theorem c4_skip_only_select_has_no_limit :
    (QueryBuilder.build "test1" (QueryBuilder.skip 10
      (QueryBuilder.whereCond
        (WhereCondArg.wObj [("a", SqlVal.vNum 123), ("b", SqlVal.vNum 456)])
        none (QueryBuilder.select ["name", "age"] initData).1).1)).1 =
      Except.ok "SELECT `name`, `age` FROM `test1` WHERE `a`=123 AND `b`=456"
    := rfl

/-- C5: calling skip(n) then limit(m) yields exactly the same builder state
as calling limit(m) then skip(n) — in particular the same stored LIMIT
clause and the same build() output — so pagination call order never
matters. -/
theorem c5_pagination_commutes (d : QueryBuilderData) (n m : Nat)
    (t : String) :
    QueryBuilder.limit m (QueryBuilder.skip n d) =
      QueryBuilder.skip n (QueryBuilder.limit m d) ∧
    (QueryBuilder.limit m (QueryBuilder.skip n d)).limit =
      (QueryBuilder.skip n (QueryBuilder.limit m d)).limit ∧
    QueryBuilder.build t (QueryBuilder.limit m (QueryBuilder.skip n d)) =
      QueryBuilder.build t (QueryBuilder.skip n (QueryBuilder.limit m d)) :=
  ⟨rfl, rfl, rfl⟩

/-- C6: the statement kind transitions at most once from unset: on a state
whose kind is still unset, any statement-establishing call sets the kind it
names, and any second statement-establishing call — whichever two kinds are
combined — throws the `cannot change query type` error and returns the state
unchanged. -/
theorem c6_kind_transitions_at_most_once (c1 c2 : EstCall)
    (d : QueryBuilderData) (h : d.type = "") :
    (applyEst c1 d).1.type = estKind c1 ∧
    applyEst c2 (applyEst c1 d).1 =
      ((applyEst c1 d).1, some (typeSetErr (estKind c1))) := by
  have h1 := applyEst_fst_type c1 d h
  refine ⟨h1, ?_⟩
  have h2 : ¬ (applyEst c1 d).1.type = "" := by
    rw [h1]
    exact estKind_ne_empty c1
  rw [applyEst_blocked c2 _ h2, h1]

/-- Witness for C6: delete then select on the fresh builder state. -/
theorem c6_kind_transitions_at_most_once_witness :
    (applyEst EstCall.eDelete initData).1.type = estKind EstCall.eDelete ∧
    applyEst (EstCall.eSelect []) (applyEst EstCall.eDelete initData).1 =
      ((applyEst EstCall.eDelete initData).1,
        some (typeSetErr (estKind EstCall.eDelete))) :=
  c6_kind_transitions_at_most_once EstCall.eDelete (EstCall.eSelect [])
    initData rfl

/-- C7: contrary to the claim, `update()` with no arguments does not
succeed: the payload assertion throws `missing update data` at the
`update()` call itself — after the kind was already set to UPDATE — and
`build()` performs no empty-payload check at all (no
`update data cannot be empty` failure exists at render time). -/
theorem c7_update_without_args_throws_at_call :
    QueryBuilder.update none none initData =
      ({ initData with type := "UPDATE" }, some "missing update data") := rfl

/-- C8: `select()` with no arguments is accepted (no error), but contrary to
the claim the projection does not fall back to the all-columns sentinel: the
empty argument list overwrites the constructor's `*` with the empty string,
so the statement renders with an empty projection (and the stray WHERE
keyword of the unconditional template). -/
theorem c8_empty_select_renders_empty_projection :
    (QueryBuilder.select [] initData).2 = none ∧
    (QueryBuilder.select [] initData).1.fields = "" ∧
    (QueryBuilder.build "test1" (QueryBuilder.select [] initData).1).1 =
      Except.ok "SELECT  FROM `test1` WHERE" := ⟨rfl, rfl, rfl⟩

/-- C9: validation failures in statement-establishing calls are not atomic:
`update()` with a missing or numeric (non-string/non-object) payload and
`insert()` with missing data or an empty array each throw, but only after
setting the kind to UPDATE resp. INSERT — and on the resulting state every
further statement-establishing call fails with the `cannot change query
type` error. -/
theorem c9_failed_call_already_set_kind (d : QueryBuilderData) (n : Nat)
    (c : EstCall) (h : d.type = "") (hn : n ≠ 0) :
    QueryBuilder.update none none d =
      ({ d with type := "UPDATE" }, some "missing update data") ∧
    QueryBuilder.update (some (UpdateVal.uNum n)) none d =
      ({ d with type := "UPDATE" },
        some "first parameter must be a string or array") ∧
    QueryBuilder.insert none d =
      ({ d with type := "INSERT" }, some "missing data") ∧
    QueryBuilder.insert (some (InsertVal.iArr [])) d =
      ({ d with type := "INSERT" },
        some "data array must at least have 1 item") ∧
    applyEst c { d with type := "UPDATE" } =
      ({ d with type := "UPDATE" }, some (typeSetErr "UPDATE")) ∧
    applyEst c { d with type := "INSERT" } =
      ({ d with type := "INSERT" }, some (typeSetErr "INSERT")) := by
  refine ⟨?_, ?_, ?_, ?_, ?_, ?_⟩
  · simp [QueryBuilder.update, h]
  · simp [QueryBuilder.update, h, truthyU, hn]
  · simp [QueryBuilder.insert, h]
  · simp [QueryBuilder.insert, h]
  · exact applyEst_blocked c _ (by simp)
  · exact applyEst_blocked c _ (by simp)

/-- Witness for C9 at the fresh builder state, payload 1, follow-up call
delete. -/
theorem c9_failed_call_already_set_kind_witness :
    QueryBuilder.update none none initData =
      ({ initData with type := "UPDATE" }, some "missing update data") ∧
    QueryBuilder.update (some (UpdateVal.uNum 1)) none initData =
      ({ initData with type := "UPDATE" },
        some "first parameter must be a string or array") ∧
    QueryBuilder.insert none initData =
      ({ initData with type := "INSERT" }, some "missing data") ∧
    QueryBuilder.insert (some (InsertVal.iArr [])) initData =
      ({ initData with type := "INSERT" },
        some "data array must at least have 1 item") ∧
    applyEst EstCall.eDelete { initData with type := "UPDATE" } =
      ({ initData with type := "UPDATE" }, some (typeSetErr "UPDATE")) ∧
    applyEst EstCall.eDelete { initData with type := "INSERT" } =
      ({ initData with type := "INSERT" }, some (typeSetErr "INSERT")) :=
  c9_failed_call_already_set_kind initData 1 EstCall.eDelete rfl
    (by decide)

/-- C10: `build()` is read-only and deterministic: whenever it succeeds it
returns the builder state unchanged, and an immediately repeated `build()`
on that state returns the identical string. -/
theorem c10_build_readonly_deterministic (t : String) (d : QueryBuilderData)
    (s : String) (h : (QueryBuilder.build t d).1 = Except.ok s) :
    (QueryBuilder.build t d).2 = d ∧
    (QueryBuilder.build t (QueryBuilder.build t d).2).1 = Except.ok s :=
  ⟨rfl, h⟩

/-- Witness for C10 on the delete statement of the repository's test. -/
theorem c10_build_readonly_deterministic_witness :
    (QueryBuilder.build "test1" (QueryBuilder.deleteStmt initData).1).2 =
      (QueryBuilder.deleteStmt initData).1 ∧
    (QueryBuilder.build "test1"
        (QueryBuilder.build "test1"
          (QueryBuilder.deleteStmt initData).1).2).1 =
      Except.ok "DELETE FROM `test1` WHERE" :=
  c10_build_readonly_deterministic "test1"
    (QueryBuilder.deleteStmt initData).1 "DELETE FROM `test1` WHERE" rfl
